import Mathlib

/-!
# Verification of the GraphQL course servers

A shallow embedding of the demo GraphQL servers of this repository
(modules 06 and 07 plus the unnamed server file) together with proofs of
the specification's claims about them.

Conventions of the embedding:
* TypeScript `null`/`undefined` become `Option.none`.
* A resolver that can `throw` a `GraphQLError` returns `Except GqlError α`.
* The in-memory arrays (`users`, `products`, `orders`) become lists inside
  an explicit `Store` record that mutations thread through.
* JS numbers used as money become `Rat`; counts and stock become `Int`.
* `Math.random() > 0.5` and `new Date().toISOString()` are oracles passed
  in as arguments.
-/

namespace GqlCourse

/-! ## JS string methods

The JS string methods used by the source, implemented over the character
list of the string (Lean's built-in byte-position versions are
extensionally the same but do not reduce inside the kernel). -/

/-- Model of `s.startsWith(pre)`. -/
def jsStartsWith (s pre : String) : Bool := pre.data.isPrefixOf s.data

/-- Strip whitespace from both ends of a character list. -/
def trimChars (l : List Char) : List Char :=
  ((l.dropWhile Char.isWhitespace).reverse.dropWhile Char.isWhitespace).reverse

/-- Model of `s.trim()`: strip whitespace from both ends. -/
def jsTrim (s : String) : String := String.mk (trimChars s.data)

/-- Model of `s.toLowerCase()`. -/
def jsToLower (s : String) : String := String.mk (s.data.map Char.toLower)

/-- The number of non-whitespace characters of a string. -/
def nonWhitespaceCount (s : String) : Nat :=
  (s.data.filter (fun c => !c.isWhitespace)).length

/-! ## Data model (src/module-07-error-handling/src/types, src/unnamed/part_021) -/

structure User where
  id : String
  name : String
  email : String
  role : String
deriving Repr, DecidableEq

structure Product where
  id : String
  name : String
  price : Rat
  stock : Int
deriving Repr, DecidableEq

inductive OrderStatus
  | pending
  | confirmed
  | shipped
  | delivered
  | cancelled
deriving Repr, DecidableEq

structure Order where
  id : String
  userId : String
  productId : String
  quantity : Int
  status : OrderStatus
  createdAt : String
deriving Repr, DecidableEq

structure CreateOrderInput where
  productId : String
  quantity : Int
deriving Repr, DecidableEq

/-- Context type of module 07 (`interface GraphQLContext { currentUser: User | null }`). -/
structure GraphQLContext where
  currentUser : Option User
deriving Repr, DecidableEq

/-! ## Error model (src/module-07-error-handling/src/errors/index.ts) -/

inductive ErrorCode
  | UNAUTHENTICATED
  | INVALID_TOKEN
  | TOKEN_EXPIRED
  | FORBIDDEN
  | INSUFFICIENT_PERMISSIONS
  | VALIDATION_ERROR
  | INVALID_INPUT
  | NOT_FOUND
  | ALREADY_EXISTS
  | CONFLICT
  | INSUFFICIENT_STOCK
  | ORDER_CANCELLED
  | PAYMENT_FAILED
  | INTERNAL_ERROR
  | SERVICE_UNAVAILABLE
  | DATABASE_ERROR
deriving Repr, DecidableEq

structure FieldViolation where
  field : String
  message : String
deriving Repr, DecidableEq

/-- A thrown `GraphQLError`: message plus the `extensions` map.  The
`code` entry of `extensions` is kept as a typed field; the remaining
scalar entries are kept as string pairs, and the `validationErrors`
entry of `InvalidInputError` as a structured list. -/
structure GqlError where
  message : String
  code : ErrorCode
  extensions : List (String × String)
  validationErrors : List FieldViolation
deriving Repr, DecidableEq

def authenticationError (message : String) : GqlError :=
  { message := message, code := ErrorCode.UNAUTHENTICATED,
    extensions := [], validationErrors := [] }

/-- Model of `new AuthenticationError()` with the default message. -/
def authenticationErrorDefault : GqlError :=
  authenticationError "Authentication required"

def notFoundError (resource : String) (id : String) : GqlError :=
  { message := s!"{resource} with id \"{id}\" not found",
    code := ErrorCode.NOT_FOUND,
    extensions := [("resource", resource), ("resourceId", id)],
    validationErrors := [] }

def insufficientPermissionsError (requiredRole : String) : GqlError :=
  { message := s!"This action requires {requiredRole} role",
    code := ErrorCode.INSUFFICIENT_PERMISSIONS,
    extensions := [("requiredRole", requiredRole)],
    validationErrors := [] }

def validationError (message : String) (field : String) (value : String) : GqlError :=
  { message := message, code := ErrorCode.VALIDATION_ERROR,
    extensions := [("field", field), ("invalidValue", value)],
    validationErrors := [] }

def invalidInputError (errors : List FieldViolation) : GqlError :=
  { message := "Invalid input provided", code := ErrorCode.INVALID_INPUT,
    extensions := [], validationErrors := errors }

def conflictError (message : String) (details : List (String × String)) : GqlError :=
  { message := message, code := ErrorCode.CONFLICT,
    extensions := details, validationErrors := [] }

def insufficientStockError (productId : String) (requested available : Int) : GqlError :=
  { message := s!"Insufficient stock for product. Requested: {requested}, Available: {available}",
    code := ErrorCode.INSUFFICIENT_STOCK,
    extensions := [("productId", productId),
                   ("requested", toString requested), ("available", toString available)],
    validationErrors := [] }

def orderCancelledError (orderId : String) : GqlError :=
  { message := s!"Order \"{orderId}\" has been cancelled and cannot be modified",
    code := ErrorCode.ORDER_CANCELLED,
    extensions := [("orderId", orderId)],
    validationErrors := [] }

def internalError (message : String) : GqlError :=
  { message := message, code := ErrorCode.INTERNAL_ERROR,
    extensions := [], validationErrors := [] }

/-! ## Seed data (src/module-07-error-handling/src/data/index.ts) -/

def adminUser : User :=
  { id := "1", name := "Admin User", email := "admin@example.com", role := "admin" }

def johnUser : User :=
  { id := "2", name := "John Doe", email := "john@example.com", role := "user" }

def janeUser : User :=
  { id := "3", name := "Jane Smith", email := "jane@example.com", role := "user" }

def seedUsers : List User := [adminUser, johnUser, janeUser]

def seedProducts : List Product :=
  [ { id := "1", name := "Laptop", price := 999.99, stock := 10 },
    { id := "2", name := "Mouse", price := 29.99, stock := 50 },
    { id := "3", name := "Keyboard", price := 79.99, stock := 0 },
    { id := "4", name := "Monitor", price := 299.99, stock := 5 } ]

def deliveredSeedOrder (createdAt : String) : Order :=
  { id := "1", userId := "2", productId := "1", quantity := 1,
    status := OrderStatus.delivered, createdAt := createdAt }

def cancelledSeedOrder (createdAt : String) : Order :=
  { id := "2", userId := "2", productId := "2", quantity := 2,
    status := OrderStatus.cancelled, createdAt := createdAt }

def seedOrders (createdAt : String) : List Order :=
  [deliveredSeedOrder createdAt, cancelledSeedOrder createdAt]

/-- The mutable module-level state of module 07: the three arrays and the
`nextOrderId` counter behind `generateOrderId`. -/
structure Store where
  users : List User
  products : List Product
  orders : List Order
  nextOrderId : Nat
deriving Repr, DecidableEq

def seedStore (createdAt : String) : Store :=
  { users := seedUsers, products := seedProducts,
    orders := seedOrders createdAt, nextOrderId := 3 }

/-! ## Module-07 query resolvers (src/module-07-error-handling/src/resolvers/query.ts) -/

namespace Query

/-- Model of `Query.user`: `users.find((u) => u.id === args.id) || null`. -/
def user (store : Store) (id : String) : Option User :=
  store.users.find? (fun u => u.id == id)

/-- Model of `Query.userOrError`: throws `NotFoundError('User', args.id)` when absent. -/
def userOrError (store : Store) (id : String) : Except GqlError User :=
  match store.users.find? (fun u => u.id == id) with
  | none => Except.error (notFoundError "User" id)
  | some u => Except.ok u

/-- Model of `Query.me` of module 07: throws `AuthenticationError` when
`context.currentUser` is null, otherwise returns `context.currentUser`. -/
def me (ctx : GraphQLContext) : Except GqlError User :=
  match ctx.currentUser with
  | none => Except.error authenticationErrorDefault
  | some u => Except.ok u

/-- Model of `Query.adminStats` of module 07. -/
def adminStats (ctx : GraphQLContext) (store : Store) : Except GqlError String :=
  match ctx.currentUser with
  | none => Except.error authenticationErrorDefault
  | some cu =>
    if cu.role ≠ "admin" then
      Except.error (insufficientPermissionsError "admin")
    else
      Except.ok s!"Total users: {store.users.length}, Products: {store.products.length}, Orders: {store.orders.length}"

/-- Model of `Query.users`. -/
def users (store : Store) : List User := store.users

/-- Model of `Query.products`. -/
def products (store : Store) : List Product := store.products

/-- Model of `Query.product`. -/
def product (store : Store) (id : String) : Option Product :=
  store.products.find? (fun p => p.id == id)

/-- Model of `Query.orders`. -/
def orders (store : Store) : List Order := store.orders

/-- Model of `Query.order`. -/
def order (store : Store) (id : String) : Option Order :=
  store.orders.find? (fun o => o.id == id)

/-- Model of `Query.productWithStock`. -/
def productWithStock (store : Store) (id : String) : Except GqlError Product :=
  match store.products.find? (fun p => p.id == id) with
  | none => Except.error (notFoundError "Product" id)
  | some p =>
    if p.stock = 0 then Except.error (notFoundError "Product" id)
    else Except.ok p

/-- One element of the `batchUsers` partial-response payload. -/
structure BatchUserEntry where
  user : Option User
  error : Option String
deriving Repr, DecidableEq

structure BatchUsersResult where
  users : List BatchUserEntry
  successCount : Nat
  errorCount : Nat
deriving Repr, DecidableEq

/-- Model of `Query.batchUsers`: per-id lookup collecting successes and failures. -/
def batchUsers (store : Store) (ids : List String) : BatchUsersResult :=
  let results := ids.map (fun id =>
    match store.users.find? (fun u => u.id == id) with
    | some u => ({ user := some u, error := none } : BatchUserEntry)
    | none => ({ user := none, error := some s!"User with id \"{id}\" not found" } : BatchUserEntry))
  { users := results,
    successCount := (results.filter (fun r => r.user.isSome)).length,
    errorCount := (results.filter (fun r => r.error.isSome)).length }

/-- Model of `Query.unreliableQuery`; `randAboveHalf` is the oracle `Math.random() > 0.5`. -/
def unreliableQuery (randAboveHalf : Bool) : Except GqlError String :=
  if randAboveHalf then Except.error (internalError "Random failure occurred")
  else Except.ok "Success! You got lucky."

end Query

/-! ## Module-07 type resolvers (src/module-07-error-handling/src/resolvers/types.ts) -/

namespace OrderResolver

/-- Model of `Order_Resolver.user`. -/
def user (store : Store) (parent : Order) : Option User :=
  store.users.find? (fun u => u.id == parent.userId)

/-- Model of `Order_Resolver.product`. -/
def product (store : Store) (parent : Order) : Option Product :=
  store.products.find? (fun p => p.id == parent.productId)

end OrderResolver

/-! ## Error-masking hook (src/unnamed/part_021, `maskedErrors.maskError`) -/

/-- The `maskError` hook installed on `createYoga`: despite the comment
`// In production, mask unexpected errors`, it returns the original error
unchanged on both branches.  `message` is the generic replacement message
yoga offers the hook; `isDev` distinguishes development from production. -/
def maskError (error : GqlError) (_genericMessage : String) (isDev : Bool) : GqlError :=
  if isDev then error else error

/-! ## Module-07 mutation resolvers (src/module-07-error-handling/src/resolvers/query.ts, `Mutation`) -/

/-- Replace the first list element satisfying `p` by `f` of it: the effect
of `arr.find(p)` followed by an in-place mutation of the found object. -/
def updateFirst (p : α → Bool) (f : α → α) : List α → List α
  | [] => []
  | x :: xs => if p x then f x :: xs else x :: updateFirst p f xs

/-- Result payload `{ success, message, order }` of the order mutations. -/
structure OrderResult where
  success : Bool
  message : String
  order : Order
deriving Repr, DecidableEq

namespace Mutation

/-- Model of `Mutation.createOrder`.  `now` stands for `new Date().toISOString()`.
Returns the resolver outcome together with the store left behind. -/
def createOrder (ctx : GraphQLContext) (now : String) (input : CreateOrderInput)
    (store : Store) : Except GqlError OrderResult × Store :=
  match ctx.currentUser with
  | none => (Except.error authenticationErrorDefault, store)
  | some cu =>
    if input.quantity ≤ 0 then
      (Except.error (validationError "Quantity must be greater than 0" "quantity"
        (toString input.quantity)), store)
    else if input.quantity > 100 then
      (Except.error (validationError "Maximum quantity per order is 100" "quantity"
        (toString input.quantity)), store)
    else
      match store.products.find? (fun p => p.id == input.productId) with
      | none => (Except.error (notFoundError "Product" input.productId), store)
      | some product =>
        if product.stock < input.quantity then
          (Except.error (insufficientStockError input.productId input.quantity product.stock),
           store)
        else
          let order : Order :=
            { id := toString store.nextOrderId, userId := cu.id,
              productId := input.productId, quantity := input.quantity,
              status := OrderStatus.pending, createdAt := now }
          let products := updateFirst (fun p => p.id == input.productId)
            (fun p => { p with stock := p.stock - input.quantity }) store.products
          (Except.ok { success := true, message := "Order created successfully", order := order },
           { store with products := products, orders := store.orders ++ [order],
                        nextOrderId := store.nextOrderId + 1 })

/-- Model of `Mutation.cancelOrder`. -/
def cancelOrder (ctx : GraphQLContext) (id : String) (store : Store) :
    Except GqlError OrderResult × Store :=
  match ctx.currentUser with
  | none => (Except.error authenticationErrorDefault, store)
  | some cu =>
    match store.orders.find? (fun o => o.id == id) with
    | none => (Except.error (notFoundError "Order" id), store)
    | some order =>
      if order.userId ≠ cu.id ∧ cu.role ≠ "admin" then
        (Except.error (authenticationError "You can only cancel your own orders"), store)
      else if order.status = OrderStatus.cancelled then
        (Except.error (orderCancelledError id), store)
      else if order.status = OrderStatus.delivered then
        (Except.error (conflictError "Cannot cancel a delivered order"
          [("orderId", id), ("currentStatus", "delivered")]), store)
      else
        let products := updateFirst (fun p => p.id == order.productId)
          (fun p => { p with stock := p.stock + order.quantity }) store.products
        let order' := { order with status := OrderStatus.cancelled }
        let orders := updateFirst (fun o => o.id == id) (fun _ => order') store.orders
        (Except.ok { success := true, message := "Order cancelled successfully", order := order' },
         { store with products := products, orders := orders })

def validStatuses : List String :=
  ["pending", "confirmed", "shipped", "delivered", "cancelled"]

def validStatusesJoined : String := String.intercalate ", " validStatuses

def parseStatus (s : String) : Option OrderStatus :=
  if s = "pending" then some OrderStatus.pending
  else if s = "confirmed" then some OrderStatus.confirmed
  else if s = "shipped" then some OrderStatus.shipped
  else if s = "delivered" then some OrderStatus.delivered
  else if s = "cancelled" then some OrderStatus.cancelled
  else none

/-- Model of `Mutation.updateOrderStatus`. -/
def updateOrderStatus (ctx : GraphQLContext) (id : String) (status : String)
    (store : Store) : Except GqlError OrderResult × Store :=
  match ctx.currentUser with
  | none => (Except.error authenticationErrorDefault, store)
  | some cu =>
    if cu.role ≠ "admin" then
      (Except.error (authenticationError "Only admins can update order status"), store)
    else
      match store.orders.find? (fun o => o.id == id) with
      | none => (Except.error (notFoundError "Order" id), store)
      | some order =>
        match parseStatus status with
        | none =>
          (Except.error (validationError
            s!"Invalid status. Must be one of: {validStatusesJoined}"
            "status" status), store)
        | some st =>
          if order.status = OrderStatus.cancelled then
            (Except.error (orderCancelledError id), store)
          else
            let order' := { order with status := st }
            let orders := updateFirst (fun o => o.id == id) (fun _ => order') store.orders
            (Except.ok { success := true, message := s!"Order status updated to {status}",
                         order := order' },
             { store with orders := orders })

/-- Model of `Mutation.alwaysFails`. -/
def alwaysFails : Except GqlError String :=
  Except.error (internalError "This mutation always fails for demonstration purposes")

/-- The four validation rules of `Mutation.createProduct`, evaluated
without short-circuiting into one list of violations. -/
def createProductViolations (name : String) (price : Rat) (stock : Int) :
    List FieldViolation :=
  (if (jsTrim name).length < 2 then
    [{ field := "name", message := "Name must be at least 2 characters" }] else []) ++
  (if price ≤ 0 then
    [{ field := "price", message := "Price must be greater than 0" }] else []) ++
  (if price > 1000000 then
    [{ field := "price", message := "Price cannot exceed 1,000,000" }] else []) ++
  (if stock < 0 then
    [{ field := "stock", message := "Stock cannot be negative" }] else [])

/-- Model of `Mutation.createProduct`.  (`!args.name || args.name.trim().length < 2`
collapses to `name.trim.length < 2`, the empty string having trim length 0.) -/
def createProduct (ctx : GraphQLContext) (name : String) (price : Rat) (stock : Int)
    (store : Store) : Except GqlError Product × Store :=
  match ctx.currentUser with
  | none => (Except.error authenticationErrorDefault, store)
  | some cu =>
    if cu.role ≠ "admin" then
      (Except.error (authenticationError "Only admins can create products"), store)
    else
      let errors := createProductViolations name price stock
      if errors ≠ [] then
        (Except.error (invalidInputError errors), store)
      else if (store.products.find?
          (fun p => jsToLower p.name == jsToLower name)).isSome then
        (Except.error (conflictError s!"Product with name \"{name}\" already exists" []), store)
      else
        let product : Product :=
          { id := toString (store.products.length + 1), name := jsTrim name,
            price := price, stock := stock }
        (Except.ok product, { store with products := store.products ++ [product] })

end Mutation

/-! ## Module-06-context-02: context factory and resolvers -/

structure AuthUser where
  id : String
  email : String
  role : String
deriving Repr, DecidableEq

/-- The mock database of module-06-context-02 (`src/db/index.ts`). -/
def db06Users : List User := seedUsers

/-- Context of module-06-context-02: `{ db, currentUser }`. -/
structure Context06 where
  dbUsers : List User
  currentUser : Option AuthUser
deriving Repr, DecidableEq

/-- Model of `verifyToken` of src/module-06-context-02/src/context/index.ts: the
hardcoded token → principal lookup table, `null` for anything else. -/
def adminPrincipal : AuthUser := { id := "1", email := "admin@example.com", role := "admin" }

def johnPrincipal : AuthUser := { id := "2", email := "john@example.com", role := "user" }

def janePrincipal : AuthUser := { id := "3", email := "jane@example.com", role := "user" }

def verifyToken (token : String) : Option AuthUser :=
  if token = "admin-jwt-token" then some adminPrincipal
  else if token = "john-jwt-token" then some johnPrincipal
  else if token = "jane-jwt-token" then some janePrincipal
  else none

/-- Model of `createContext` of src/module-06-context-02/src/context/index.ts.
`authHeader` is `request.headers.get('authorization')` (`none` when the
header is absent).  Total: it never throws, returning an anonymous
context for any malformed header. -/
def createContext (authHeader : Option String) : Context06 :=
  let currentUser : Option AuthUser :=
    match authHeader with
    | none => none
    | some h => if jsStartsWith h "Bearer " then verifyToken (h.drop 7) else none
  { dbUsers := db06Users, currentUser := currentUser }

namespace Query06

/-- Model of `Query.adminOnly` of module-06-context-02. -/
def adminOnly (ctx : Context06) : Except GqlError String :=
  match ctx.currentUser with
  | none => Except.error (authenticationError "Authentication required")
  | some cu =>
    if cu.role ≠ "admin" then
      Except.error { message := "Admin access required", code := ErrorCode.FORBIDDEN,
                     extensions := [], validationErrors := [] }
    else
      Except.ok "Secret admin data! Only admins can see this."

end Query06

/-! ## Module-07 server context factory (src/unnamed/part_021, `createYoga` context) -/

/-- Model of `validateToken` of the module-07 server: hardcoded token → user-id
table followed by a lookup in the `users` array. -/
def validateToken (store : Store) (token : String) : Option User :=
  let userId : Option String :=
    if token = "admin-token" then some "1"
    else if token = "user-token" then some "2"
    else if token = "jane-token" then some "3"
    else none
  match userId with
  | some uid => store.users.find? (fun u => u.id == uid)
  | none => none

/-- The `context` factory passed to `createYoga` in the module-07 server:
reads the authorization header, strips the `Bearer ` prefix, and resolves
the token; `currentUser` stays null otherwise. -/
def createContext07 (store : Store) (authHeader : Option String) : GraphQLContext :=
  let currentUser : Option User :=
    match authHeader with
    | none => none
    | some h => if jsStartsWith h "Bearer " then validateToken store (h.drop 7) else none
  { currentUser := currentUser }

/-! ## One request as a sequence of resolver invocations

`ResolverCall` enumerates every resolver of module 07 together with its
arguments; `runResolver` is the uniform translation of the resolver
bodies.  Because TypeScript resolvers could in principle assign to the
shared context object, the embedding threads the context through every
call and returns the (possibly updated) context: the translation of each
body returns exactly the context writes the source performs. -/

inductive ResValue
  | usersV : List User → ResValue
  | userOptV : Option User → ResValue
  | userV : User → ResValue
  | productsV : List Product → ResValue
  | productOptV : Option Product → ResValue
  | productV : Product → ResValue
  | ordersV : List Order → ResValue
  | orderOptV : Option Order → ResValue
  | strV : String → ResValue
  | batchV : Query.BatchUsersResult → ResValue
  | orderResultV : OrderResult → ResValue
deriving Repr, DecidableEq

inductive ResolverCall
  | qUsers
  | qUser (id : String)
  | qProducts
  | qProduct (id : String)
  | qOrders
  | qOrder (id : String)
  | qUserOrError (id : String)
  | qProductWithStock (id : String)
  | qBatchUsers (ids : List String)
  | qUnreliableQuery (randAboveHalf : Bool)
  | qMe
  | qAdminStats
  | mCreateOrder (now : String) (input : CreateOrderInput)
  | mCancelOrder (id : String)
  | mUpdateOrderStatus (id : String) (status : String)
  | mAlwaysFails
  | mCreateProduct (name : String) (price : Rat) (stock : Int)
  | oUser (parent : Order)
  | oProduct (parent : Order)
deriving Repr, DecidableEq

/-- Run one resolver: outcome, the context it leaves behind, and the
store it leaves behind. -/
def runResolver (call : ResolverCall) (ctx : GraphQLContext) (store : Store) :
    Except GqlError ResValue × GraphQLContext × Store :=
  match call with
  | .qUsers => (Except.ok (ResValue.usersV (Query.users store)), ctx, store)
  | .qUser id => (Except.ok (ResValue.userOptV (Query.user store id)), ctx, store)
  | .qProducts => (Except.ok (ResValue.productsV (Query.products store)), ctx, store)
  | .qProduct id => (Except.ok (ResValue.productOptV (Query.product store id)), ctx, store)
  | .qOrders => (Except.ok (ResValue.ordersV (Query.orders store)), ctx, store)
  | .qOrder id => (Except.ok (ResValue.orderOptV (Query.order store id)), ctx, store)
  | .qUserOrError id => ((Query.userOrError store id).map ResValue.userV, ctx, store)
  | .qProductWithStock id => ((Query.productWithStock store id).map ResValue.productV, ctx, store)
  | .qBatchUsers ids => (Except.ok (ResValue.batchV (Query.batchUsers store ids)), ctx, store)
  | .qUnreliableQuery r => ((Query.unreliableQuery r).map ResValue.strV, ctx, store)
  | .qMe => ((Query.me ctx).map ResValue.userV, ctx, store)
  | .qAdminStats => ((Query.adminStats ctx store).map ResValue.strV, ctx, store)
  | .mCreateOrder now input =>
    let out := Mutation.createOrder ctx now input store
    (out.1.map ResValue.orderResultV, ctx, out.2)
  | .mCancelOrder id =>
    let out := Mutation.cancelOrder ctx id store
    (out.1.map ResValue.orderResultV, ctx, out.2)
  | .mUpdateOrderStatus id status =>
    let out := Mutation.updateOrderStatus ctx id status store
    (out.1.map ResValue.orderResultV, ctx, out.2)
  | .mAlwaysFails => (Mutation.alwaysFails.map ResValue.strV, ctx, store)
  | .mCreateProduct name price stock =>
    let out := Mutation.createProduct ctx name price stock store
    (out.1.map ResValue.productV, ctx, out.2)
  | .oUser parent => (Except.ok (ResValue.userOptV (OrderResolver.user store parent)), ctx, store)
  | .oProduct parent => (Except.ok (ResValue.productOptV (OrderResolver.product store parent)), ctx, store)

/-- Run the resolver invocations of one request in order, handing each
resolver the context left by the previous one and recording the context
each resolver observes. -/
def runCalls (ctx : GraphQLContext) (calls : List ResolverCall) (store : Store) :
    List (GraphQLContext × Except GqlError ResValue) × Store :=
  match calls with
  | [] => ([], store)
  | c :: cs =>
    let out := runResolver c ctx store
    let rest := runCalls out.2.1 cs out.2.2
    ((ctx, out.1) :: rest.1, rest.2)

/-- One full request of the module-07 server: the context factory runs
once on the authorization header, then every resolver of the request runs
against the resulting context. -/
def runRequest (authHeader : Option String) (calls : List ResolverCall) (store : Store) :
    List (GraphQLContext × Except GqlError ResValue) × Store :=
  runCalls (createContext07 store authHeader) calls store

/-! ## Mutation-root operations and the sequential engine -/

/-- One top-level selection of a mutation-root operation of module 07. -/
inductive MutCmd
  | createOrder (now : String) (input : CreateOrderInput)
  | cancelOrder (id : String)
  | updateOrderStatus (id : String) (status : String)
  | alwaysFails
  | createProduct (name : String) (price : Rat) (stock : Int)
deriving Repr, DecidableEq

inductive MutResult
  | orderR : OrderResult → MutResult
  | strR : String → MutResult
  | productR : Product → MutResult
deriving Repr, DecidableEq

def runMutation (ctx : GraphQLContext) (cmd : MutCmd) (store : Store) :
    Except GqlError MutResult × Store :=
  match cmd with
  | .createOrder now input =>
    let out := Mutation.createOrder ctx now input store
    (out.1.map MutResult.orderR, out.2)
  | .cancelOrder id =>
    let out := Mutation.cancelOrder ctx id store
    (out.1.map MutResult.orderR, out.2)
  | .updateOrderStatus id status =>
    let out := Mutation.updateOrderStatus ctx id status store
    (out.1.map MutResult.orderR, out.2)
  | .alwaysFails => (Mutation.alwaysFails.map MutResult.strR, store)
  | .createProduct name price stock =>
    let out := Mutation.createProduct ctx name price stock store
    (out.1.map MutResult.productR, out.2)

/-- Modelled from the spec: the Resolution Engine (spec §4.2) is library
code (graphql-yoga / graphql-js) and is not under src/; per the spec,
sibling root-level selections of a mutation operation are resolved
sequentially in document order, each completing before the next starts,
threading the store state from one selection to the next. -/
def resolveMutationRoot (ctx : GraphQLContext) (sels : List MutCmd) (store : Store) :
    List (Except GqlError MutResult) × Store :=
  match sels with
  | [] => ([], store)
  | c :: cs =>
    let out := runMutation ctx c store
    let rest := resolveMutationRoot ctx cs out.2
    (out.1 :: rest.1, rest.2)

/-- Run a trace of mutation-root selections (each with the context of its
request) starting from a store; used to state store invariants. -/
def runMutationTrace (trace : List (GraphQLContext × MutCmd)) (store : Store) : Store :=
  match trace with
  | [] => store
  | (ctx, c) :: rest => runMutationTrace rest (runMutation ctx c store).2

/-- The store invariant maintained by every mutation of module 07: all
stocks are non-negative and all stored orders have positive quantity. -/
def StoreInv (s : Store) : Prop :=
  (∀ p ∈ s.products, 0 ≤ p.stock) ∧ (∀ o ∈ s.orders, 0 < o.quantity)

/-! # Theorems -/

/-- C1: with a null `currentUser`, the module-07 `me` resolver throws the
`AuthenticationError`, whose `extensions.code` is `UNAUTHENTICATED`, and
produces no user value; with a non-null `currentUser` it returns exactly
that user and no error. -/
theorem me_resolver_authentication (ctx : GraphQLContext) :
    (ctx.currentUser = none →
      Query.me ctx = Except.error authenticationErrorDefault ∧
      authenticationErrorDefault.code = ErrorCode.UNAUTHENTICATED ∧
      ∀ u, Query.me ctx ≠ Except.ok u) ∧
    (∀ u, ctx.currentUser = some u → Query.me ctx = Except.ok u) := by
  constructor
  · intro h
    refine ⟨?_, rfl, ?_⟩
    · simp [Query.me, h]
    · intro u
      simp [Query.me, h]
  · intro u h
    simp [Query.me, h]

/-- C1 witness: the anonymous context is rejected with `UNAUTHENTICATED`,
and the context carrying the admin user returns that user. -/
theorem me_resolver_authentication_witness :
    (Query.me { currentUser := none } = Except.error authenticationErrorDefault ∧
      authenticationErrorDefault.code = ErrorCode.UNAUTHENTICATED ∧
      ∀ u, Query.me { currentUser := none } ≠ Except.ok u) ∧
    Query.me { currentUser := some adminUser } = Except.ok adminUser :=
  ⟨(me_resolver_authentication { currentUser := none }).1 rfl,
   (me_resolver_authentication { currentUser := some adminUser }).2 adminUser rfl⟩

/-- C2: the module-06-context-02 context factory is total (it always
returns a context over the shared db and never throws), yields a null
`currentUser` when the authorization header is absent, does not start
with `Bearer `, or carries an unknown token, and maps each of the three
known tokens to its principal. -/
theorem createContext_currentUser (h : Option String) :
    ((createContext h).dbUsers = db06Users) ∧
    (h = none → (createContext h).currentUser = none) ∧
    (∀ s, h = some s → ¬ jsStartsWith s "Bearer " → (createContext h).currentUser = none) ∧
    (∀ s, h = some s → jsStartsWith s "Bearer " →
      verifyToken (s.drop 7) = none → (createContext h).currentUser = none) ∧
    ((createContext (some "Bearer admin-jwt-token")).currentUser = some adminPrincipal) ∧
    ((createContext (some "Bearer john-jwt-token")).currentUser = some johnPrincipal) ∧
    ((createContext (some "Bearer jane-jwt-token")).currentUser = some janePrincipal) := by
  refine ⟨?_, ?_, ?_, ?_, by decide, by decide, by decide⟩
  · cases h with
    | none => rfl
    | some s => simp only [createContext]
  · intro hn; subst hn; rfl
  · intro s hs hb
    subst hs
    simp [createContext, hb]
  · intro s hs hb hv
    subst hs
    simp [createContext, hb, hv]

/-- C2 witness: a malformed header (`Basic xyz`) and an unknown bearer
token both yield an anonymous context. -/
theorem createContext_currentUser_witness :
    (createContext (some "Basic xyz")).currentUser = none ∧
    (createContext (some "Bearer bogus-token")).currentUser = none ∧
    (createContext none).currentUser = none :=
  ⟨(createContext_currentUser (some "Basic xyz")).2.2.1 _ rfl (by decide),
   (createContext_currentUser (some "Bearer bogus-token")).2.2.2.1 _ rfl (by decide) (by decide),
   (createContext_currentUser none).2.1 rfl⟩

/-- C4: for an id matching no stored user `Query.user` returns null with
no possible error (its type is a plain option), while `Query.userOrError`
throws the `NotFoundError` whose code is `NOT_FOUND` and whose message
names the resource and the id; for an id matching a stored user both
return that user. -/
theorem user_null_vs_userOrError (store : Store) (id : String) :
    (Query.user store id = none →
      Query.userOrError store id = Except.error (notFoundError "User" id) ∧
      (notFoundError "User" id).code = ErrorCode.NOT_FOUND ∧
      (notFoundError "User" id).message = s!"User with id \"{id}\" not found") ∧
    (∀ u, Query.user store id = some u →
      Query.user store id = some u ∧ Query.userOrError store id = Except.ok u) := by
  constructor
  · intro h
    refine ⟨?_, rfl, rfl⟩
    simp only [Query.userOrError, Query.user] at *
    rw [h]
  · intro u h
    refine ⟨h, ?_⟩
    simp only [Query.userOrError, Query.user] at *
    rw [h]

/-- C4 witness: on the seeded store, id `999` matches nothing (null and
`NOT_FOUND` respectively) while id `2` returns John Doe both ways. -/
theorem user_null_vs_userOrError_witness :
    (Query.userOrError (seedStore "t0") "999" =
        Except.error (notFoundError "User" "999") ∧
      (notFoundError "User" "999").code = ErrorCode.NOT_FOUND ∧
      (notFoundError "User" "999").message = "User with id \"999\" not found") ∧
    (Query.user (seedStore "t0") "2" =
        some { id := "2", name := "John Doe", email := "john@example.com", role := "user" } ∧
      Query.userOrError (seedStore "t0") "2" =
        Except.ok { id := "2", name := "John Doe", email := "john@example.com", role := "user" }) :=
  ⟨(user_null_vs_userOrError (seedStore "t0") "999").1 (by decide),
   (user_null_vs_userOrError (seedStore "t0") "2").2 _ (by decide)⟩

/-- C3 (code bug): the `maskError` hook of the module-07 server returns
the error unchanged in production (`isDev = false`) exactly as in
development, so Internal-kind errors keep their original message and
extensions at the process boundary, contrary to the hook's own comment
and the spec. -/
theorem maskError_identity_in_production (e : GqlError) (genericMessage : String) :
    maskError e genericMessage false = e ∧ maskError e genericMessage true = e :=
  ⟨rfl, rfl⟩

/-- C8: the module-06-context-02 `adminOnly` resolver rejects an
authenticated non-admin with `FORBIDDEN` — a code distinct from the
`UNAUTHENTICATED` it throws for a null `currentUser` — and returns the
protected string for an admin. -/
theorem adminOnly_forbidden_vs_unauthenticated (ctx : Context06) :
    (ctx.currentUser = none →
      ∃ e, Query06.adminOnly ctx = Except.error e ∧ e.code = ErrorCode.UNAUTHENTICATED) ∧
    (∀ cu, ctx.currentUser = some cu → cu.role ≠ "admin" →
      ∃ e, Query06.adminOnly ctx = Except.error e ∧ e.code = ErrorCode.FORBIDDEN ∧
        e.code ≠ ErrorCode.UNAUTHENTICATED) ∧
    (∀ cu, ctx.currentUser = some cu → cu.role = "admin" →
      Query06.adminOnly ctx = Except.ok "Secret admin data! Only admins can see this.") := by
  refine ⟨?_, ?_, ?_⟩
  · intro h
    refine ⟨authenticationError "Authentication required", ?_, rfl⟩
    simp [Query06.adminOnly, h]
  · intro cu h hrole
    refine ⟨{ message := "Admin access required", code := ErrorCode.FORBIDDEN,
              extensions := [], validationErrors := [] }, ?_, rfl, by decide⟩
    simp [Query06.adminOnly, h, hrole]
  · intro cu h hrole
    simp [Query06.adminOnly, h, hrole]

/-- C6: a `cancelOrder` call by an authenticated caller who owns the
order or is admin throws `ORDER_CANCELLED` when the stored order is
already cancelled and `CONFLICT` when it is delivered; in both error
cases the store — its orders and every product's stock — is returned
completely unchanged. -/
theorem cancelOrder_conflict_atomic (ctx : GraphQLContext) (cu : User) (id : String)
    (store : Store) (ord : Order)
    (hcu : ctx.currentUser = some cu)
    (hord : store.orders.find? (fun o => o.id == id) = some ord)
    (hown : ord.userId = cu.id ∨ cu.role = "admin") :
    (ord.status = OrderStatus.cancelled →
      Mutation.cancelOrder ctx id store = (Except.error (orderCancelledError id), store) ∧
      (orderCancelledError id).code = ErrorCode.ORDER_CANCELLED) ∧
    (ord.status = OrderStatus.delivered →
      Mutation.cancelOrder ctx id store =
        (Except.error (conflictError "Cannot cancel a delivered order"
          [("orderId", id), ("currentStatus", "delivered")]), store) ∧
      (conflictError "Cannot cancel a delivered order"
        [("orderId", id), ("currentStatus", "delivered")]).code = ErrorCode.CONFLICT) := by
  have hno : ¬(ord.userId ≠ cu.id ∧ cu.role ≠ "admin") := by
    rcases hown with h | h
    · exact fun hc => hc.1 h
    · exact fun hc => hc.2 h
  constructor
  · intro hst
    refine ⟨?_, rfl⟩
    simp [Mutation.cancelOrder, hcu, hord, hno, hst]
  · intro hst
    refine ⟨?_, rfl⟩
    have hne : ord.status ≠ OrderStatus.cancelled := by
      rw [hst]; exact fun h => by cases h
    simp [Mutation.cancelOrder, hcu, hord, hno, hst, hne]

/-- C6 witness: on the seeded store, John cancelling his already
cancelled order `2` hits `ORDER_CANCELLED`, and cancelling his delivered
order `1` hits `CONFLICT`; the store is untouched both times. -/
theorem cancelOrder_conflict_atomic_witness :
    (Mutation.cancelOrder { currentUser := some johnUser } "2" (seedStore "t0") =
        (Except.error (orderCancelledError "2"), seedStore "t0") ∧
      (orderCancelledError "2").code = ErrorCode.ORDER_CANCELLED) ∧
    (Mutation.cancelOrder { currentUser := some johnUser } "1" (seedStore "t0") =
        (Except.error (conflictError "Cannot cancel a delivered order"
          [("orderId", "1"), ("currentStatus", "delivered")]), seedStore "t0") ∧
      (conflictError "Cannot cancel a delivered order"
        [("orderId", "1"), ("currentStatus", "delivered")]).code = ErrorCode.CONFLICT) :=
  ⟨(cancelOrder_conflict_atomic { currentUser := some johnUser } johnUser "2"
      (seedStore "t0") (cancelledSeedOrder "t0") rfl (by decide) (Or.inl rfl)).1 rfl,
   (cancelOrder_conflict_atomic { currentUser := some johnUser } johnUser "1"
      (seedStore "t0") (deliveredSeedOrder "t0") rfl (by decide) (Or.inl rfl)).2 rfl⟩

/-- Auxiliary: dropping a whitespace prefix does not change the
non-whitespace characters. -/
theorem filter_not_dropWhile {α : Type} (p : α → Bool) (l : List α) :
    (l.dropWhile p).filter (fun a => !p a) = l.filter (fun a => !p a) := by
  induction l with
  | nil => rfl
  | cons a l ih =>
    by_cases h : p a
    · rw [List.dropWhile_cons_of_pos h, ih, List.filter_cons_of_neg (by simp [h])]
    · rw [List.dropWhile_cons_of_neg h]

/-- Auxiliary: trimming preserves the number of non-whitespace
characters. -/
theorem filter_not_trimChars (l : List Char) :
    ((trimChars l).filter (fun c => !c.isWhitespace)).length =
      (l.filter (fun c => !c.isWhitespace)).length := by
  simp only [trimChars, List.filter_reverse, List.length_reverse, filter_not_dropWhile]

/-- Auxiliary: a list with at most one non-whitespace character trims to
at most one character. -/
theorem trimChars_length_le_one {l : List Char}
    (h : (l.filter (fun c => !c.isWhitespace)).length ≤ 1) :
    (trimChars l).length ≤ 1 := by
  induction l with
  | nil => exact Nat.le_succ 0
  | cons a l ih =>
    by_cases hp : a.isWhitespace
    · have heq : trimChars (a :: l) = trimChars l := by
        simp only [trimChars, List.dropWhile_cons_of_pos hp]
      rw [heq]
      apply ih
      rwa [List.filter_cons_of_neg (by simp [hp])] at h
    · rw [List.filter_cons_of_pos (by simp [hp]), List.length_cons] at h
      have h0 : l.filter (fun c => !c.isWhitespace) = [] :=
        List.length_eq_zero.mp (by omega)
      have hall : ∀ c ∈ l.reverse, c.isWhitespace := by
        intro c hc
        rw [List.mem_reverse] at hc
        have := List.filter_eq_nil_iff.mp h0 c hc
        simpa using this
      have heq : trimChars (a :: l) = [a] := by
        simp only [trimChars, List.dropWhile_cons_of_neg hp, List.reverse_cons,
          List.dropWhile_append_of_pos hall, List.reverse_nil, List.nil_append]
      rw [heq]
      exact Nat.le_refl 1

/-- The source's name check `name.trim().length < 2` holds exactly when
the name has fewer than 2 non-whitespace characters. -/
theorem jsTrim_length_lt_two_iff (s : String) :
    (jsTrim s).length < 2 ↔ nonWhitespaceCount s < 2 := by
  constructor
  · intro h
    have h2 := filter_not_trimChars s.data
    have h3 := List.length_filter_le (fun c => !c.isWhitespace) (trimChars s.data)
    have h4 : (trimChars s.data).length < 2 := h
    unfold nonWhitespaceCount
    omega
  · intro h
    have h1 : (s.data.filter (fun c => !c.isWhitespace)).length ≤ 1 := by
      unfold nonWhitespaceCount at h
      omega
    have := trimChars_length_le_one h1
    show (trimChars s.data).length < 2
    omega

/-- Auxiliary: membership in a conditional one-element list. -/
theorem mem_ite_singleton {α : Type} {c : Prop} [Decidable c] {x v : α} :
    (x ∈ if c then [v] else []) ↔ c ∧ x = v := by
  split_ifs with h <;> simp [h]

/-- C7: a `createProduct` call by an authenticated admin with any invalid
argument throws one single error with code `INVALID_INPUT` carrying the
full violation list — each of the four rules contributes its entry iff
that rule failed, with no short-circuiting — and the store is unchanged.
(The source's name rule `!name || name.trim().length < 2` is
`(jsTrim name).length < 2`, which `jsTrim_length_lt_two_iff` shows to be
exactly "fewer than 2 non-whitespace characters".) -/
theorem createProduct_validation (ctx : GraphQLContext) (cu : User) (name : String)
    (price : Rat) (stock : Int) (store : Store)
    (hcu : ctx.currentUser = some cu) (hadmin : cu.role = "admin")
    (hbad : nonWhitespaceCount name < 2 ∨ price ≤ 0 ∨ price > 1000000 ∨ stock < 0) :
    Mutation.createProduct ctx name price stock store =
      (Except.error (invalidInputError (Mutation.createProductViolations name price stock)),
       store) ∧
    (invalidInputError (Mutation.createProductViolations name price stock)).code =
      ErrorCode.INVALID_INPUT ∧
    (({ field := "name", message := "Name must be at least 2 characters" } : FieldViolation)
        ∈ Mutation.createProductViolations name price stock ↔ nonWhitespaceCount name < 2) ∧
    (({ field := "price", message := "Price must be greater than 0" } : FieldViolation)
        ∈ Mutation.createProductViolations name price stock ↔ price ≤ 0) ∧
    (({ field := "price", message := "Price cannot exceed 1,000,000" } : FieldViolation)
        ∈ Mutation.createProductViolations name price stock ↔ price > 1000000) ∧
    (({ field := "stock", message := "Stock cannot be negative" } : FieldViolation)
        ∈ Mutation.createProductViolations name price stock ↔ stock < 0) := by
  have hne : Mutation.createProductViolations name price stock ≠ [] := by
    intro hnil
    rcases hbad with h | h | h | h
    · have h' := (jsTrim_length_lt_two_iff name).mpr h
      simp [Mutation.createProductViolations, h', List.append_eq_nil] at hnil
    · simp [Mutation.createProductViolations, h, List.append_eq_nil] at hnil
    · simp [Mutation.createProductViolations, h, List.append_eq_nil] at hnil
    · simp [Mutation.createProductViolations, h, List.append_eq_nil] at hnil
  refine ⟨?_, rfl, ?_, ?_, ?_, ?_⟩
  · simp [Mutation.createProduct, hcu, hadmin, hne]
  · rw [← jsTrim_length_lt_two_iff]
    simp [Mutation.createProductViolations, List.mem_append, mem_ite_singleton,
      FieldViolation.mk.injEq]
  · simp [Mutation.createProductViolations, List.mem_append, mem_ite_singleton,
      FieldViolation.mk.injEq]
  · simp [Mutation.createProductViolations, List.mem_append, mem_ite_singleton,
      FieldViolation.mk.injEq]
  · simp [Mutation.createProductViolations, List.mem_append, mem_ite_singleton,
      FieldViolation.mk.injEq]

/-- C7 witness: the admin sending name `x`, price `10`, stock `-1` gets
the single `INVALID_INPUT` error with the collected violations while the
seeded store is untouched. -/
theorem createProduct_validation_witness :
    Mutation.createProduct { currentUser := some adminUser } "x" 10 (-1) (seedStore "t0") =
      (Except.error (invalidInputError (Mutation.createProductViolations "x" 10 (-1))),
       seedStore "t0") :=
  (createProduct_validation { currentUser := some adminUser } adminUser "x" 10 (-1)
    (seedStore "t0") rfl rfl (Or.inr (Or.inr (Or.inr (by decide))))).1

/-- Every resolver of module 07 leaves the context it was handed
unchanged: the translation of each resolver body performs no write to the
context record. -/
theorem runResolver_context_eq (call : ResolverCall) (ctx : GraphQLContext) (s : Store) :
    (runResolver call ctx s).2.1 = ctx := by
  cases call <;> rfl

/-- Auxiliary: the context recorded as observed by each resolver of a
call sequence is the context the sequence started with. -/
theorem runCalls_observed_contexts (calls : List ResolverCall) (ctx : GraphQLContext)
    (s : Store) :
    (runCalls ctx calls s).1.map Prod.fst = calls.map (fun _ => ctx) := by
  induction calls generalizing ctx s with
  | nil => rfl
  | cons c cs ih =>
    simp only [runCalls, List.map_cons, List.cons.injEq, true_and,
      runResolver_context_eq]
    exact ih ctx _

/-- C5: during one request the context factory output is the context every
resolver observes — `runResolver` never returns a modified context, so the
single context built by `createContext07` before resolution is observed
unchanged by every resolver of the request. -/
theorem context_built_once_never_mutated (authHeader : Option String)
    (calls : List ResolverCall) (store : Store) :
    (∀ call ctx s, (runResolver call ctx s).2.1 = ctx) ∧
    (runRequest authHeader calls store).1.map Prod.fst =
      calls.map (fun _ => createContext07 store authHeader) := by
  refine ⟨fun call ctx s => runResolver_context_eq call ctx s, ?_⟩
  exact runCalls_observed_contexts calls (createContext07 store authHeader) store

/-- C9: sibling mutation-root selections are resolved strictly
sequentially in document order — in `pre ++ c :: rest`, selection `c`
runs against exactly the store produced by fully resolving `pre`, and
`rest` continues from the store `c` leaves behind. -/
theorem mutation_siblings_sequential (ctx : GraphQLContext) (pre : List MutCmd)
    (c : MutCmd) (rest : List MutCmd) (s : Store) :
    resolveMutationRoot ctx (pre ++ c :: rest) s =
      ((resolveMutationRoot ctx pre s).1 ++
        (runMutation ctx c (resolveMutationRoot ctx pre s).2).1 ::
          (resolveMutationRoot ctx rest
            (runMutation ctx c (resolveMutationRoot ctx pre s).2).2).1,
       (resolveMutationRoot ctx rest
          (runMutation ctx c (resolveMutationRoot ctx pre s).2).2).2) := by
  induction pre generalizing s with
  | nil => rfl
  | cons p ps ih =>
    simp only [List.cons_append, resolveMutationRoot, List.append_eq]
    rw [ih]

/-- Auxiliary: an element of `updateFirst p f l` is an old element of
`l` or the image under `f` of the first element satisfying `p`. -/
theorem mem_updateFirst {α : Type} {p : α → Bool} {f : α → α} {l : List α} {x : α}
    (hx : x ∈ updateFirst p f l) :
    x ∈ l ∨ ∃ y, l.find? p = some y ∧ x = f y := by
  induction l with
  | nil => cases hx
  | cons a l ih =>
    rw [updateFirst] at hx
    by_cases ha : p a
    · rw [if_pos ha] at hx
      rw [List.mem_cons] at hx
      rcases hx with rfl | hx
      · exact Or.inr ⟨a, List.find?_cons_of_pos l ha, rfl⟩
      · exact Or.inl (List.mem_cons_of_mem a hx)
    · rw [if_neg ha] at hx
      rw [List.mem_cons] at hx
      rcases hx with rfl | hx
      · exact Or.inl (List.mem_cons_self _ _)
      · rcases ih hx with h | ⟨y, hy, hxy⟩
        · exact Or.inl (List.mem_cons_of_mem a h)
        · refine Or.inr ⟨y, ?_, hxy⟩
          rw [List.find?_cons_of_neg l (by simpa using ha), hy]

/-- Auxiliary: the seeded module-07 store satisfies the invariant. -/
theorem seedStore_inv (createdAt : String) : StoreInv (seedStore createdAt) := by
  constructor
  · intro p hp
    simp [seedStore, seedProducts, List.mem_cons] at hp
    rcases hp with rfl | rfl | rfl | rfl <;> decide
  · intro o ho
    simp [seedStore, seedOrders, deliveredSeedOrder, cancelledSeedOrder,
      List.mem_cons] at ho
    rcases ho with rfl | rfl <;> simp

/-- Auxiliary: an empty violation list implies the stock argument was
non-negative. -/
theorem createProductViolations_nil_stock {name : String} {price : Rat} {stock : Int}
    (h : Mutation.createProductViolations name price stock = []) : ¬ stock < 0 := by
  intro hst
  simp [Mutation.createProductViolations, hst, List.append_eq_nil] at h

/-- Auxiliary: every single mutation of module 07 preserves the store
invariant — the error branches return the store untouched and the success
branches only decrement stock after the bound check, add back a stored
order's quantity, or append non-negative-stock products and
positive-quantity orders. -/
theorem runMutation_preserves_inv (ctx : GraphQLContext) (cmd : MutCmd) (s : Store)
    (h : StoreInv s) : StoreInv (runMutation ctx cmd s).2 := by
  obtain ⟨hp, ho⟩ := h
  cases cmd with
  | createOrder now input =>
    simp only [runMutation]
    cases hcu : ctx.currentUser with
    | none => simp only [Mutation.createOrder, hcu]; exact ⟨hp, ho⟩
    | some cu =>
      simp only [Mutation.createOrder, hcu]
      split_ifs with hq hq100
      · exact ⟨hp, ho⟩
      · exact ⟨hp, ho⟩
      · cases hfind : s.products.find? (fun p => p.id == input.productId) with
        | none => simp only [hfind]; exact ⟨hp, ho⟩
        | some product =>
          simp only [hfind]
          split_ifs with hstock
          · exact ⟨hp, ho⟩
          · constructor
            · intro x hx
              rcases mem_updateFirst hx with hmem | ⟨y, hy, rfl⟩
              · exact hp x hmem
              · rw [hfind] at hy
                injection hy with hy'
                rw [← hy']
                have := hp product (List.mem_of_find?_eq_some hfind)
                show 0 ≤ product.stock - input.quantity
                omega
            · intro x hx
              rw [List.mem_append] at hx
              rcases hx with hmem | hnew
              · exact ho x hmem
              · rw [List.mem_singleton] at hnew
                subst hnew
                show 0 < input.quantity
                omega
  | cancelOrder id =>
    simp only [runMutation]
    cases hcu : ctx.currentUser with
    | none => simp only [Mutation.cancelOrder, hcu]; exact ⟨hp, ho⟩
    | some cu =>
      simp only [Mutation.cancelOrder, hcu]
      cases hfind : s.orders.find? (fun o => o.id == id) with
      | none => simp only [hfind]; exact ⟨hp, ho⟩
      | some ord =>
        simp only [hfind]
        split_ifs with hown hcanc hdel
        · exact ⟨hp, ho⟩
        · exact ⟨hp, ho⟩
        · exact ⟨hp, ho⟩
        · have hoq := ho ord (List.mem_of_find?_eq_some hfind)
          constructor
          · intro x hx
            rcases mem_updateFirst hx with hmem | ⟨y, hy, rfl⟩
            · exact hp x hmem
            · have := hp y (List.mem_of_find?_eq_some hy)
              show 0 ≤ y.stock + ord.quantity
              omega
          · intro x hx
            rcases mem_updateFirst hx with hmem | ⟨y, hy, rfl⟩
            · exact ho x hmem
            · show 0 < ord.quantity
              exact hoq
  | updateOrderStatus id status =>
    simp only [runMutation]
    cases hcu : ctx.currentUser with
    | none => simp only [Mutation.updateOrderStatus, hcu]; exact ⟨hp, ho⟩
    | some cu =>
      simp only [Mutation.updateOrderStatus, hcu]
      split_ifs with hrole
      · exact ⟨hp, ho⟩
      · cases hfind : s.orders.find? (fun o => o.id == id) with
        | none => simp only [hfind]; exact ⟨hp, ho⟩
        | some ord =>
          simp only [hfind]
          cases hst : Mutation.parseStatus status with
          | none => simp only [hst]; exact ⟨hp, ho⟩
          | some st =>
            simp only [hst]
            split_ifs with hcanc
            · exact ⟨hp, ho⟩
            · refine ⟨hp, ?_⟩
              intro x hx
              rcases mem_updateFirst hx with hmem | ⟨y, hy, rfl⟩
              · exact ho x hmem
              · show 0 < ord.quantity
                exact ho ord (List.mem_of_find?_eq_some hfind)
  | alwaysFails => exact ⟨hp, ho⟩
  | createProduct name price stock =>
    simp only [runMutation]
    cases hcu : ctx.currentUser with
    | none => simp only [Mutation.createProduct, hcu]; exact ⟨hp, ho⟩
    | some cu =>
      simp only [Mutation.createProduct, hcu]
      split_ifs with hrole herr hdup
      · exact ⟨hp, ho⟩
      · exact ⟨hp, ho⟩
      · exact ⟨hp, ho⟩
      · refine ⟨?_, ho⟩
        intro x hx
        rw [List.mem_append] at hx
        rcases hx with hmem | hnew
        · exact hp x hmem
        · rw [List.mem_singleton] at hnew
          subst hnew
          have := createProductViolations_nil_stock (not_ne_iff.mp herr)
          show 0 ≤ stock
          omega

/-- C10: starting from the seeded module-07 data, after any sequence of
mutation-root operations every product's stock is non-negative:
`createOrder` decrements only after the `0 < quantity ≤ stock` checks,
`cancelOrder` only adds a stored order's positive quantity back,
`createProduct` rejects negative initial stock, and no other operation
writes stock. -/
theorem stock_nonnegative_invariant (createdAt : String)
    (trace : List (GraphQLContext × MutCmd)) :
    ∀ p ∈ (runMutationTrace trace (seedStore createdAt)).products, 0 ≤ p.stock := by
  have main : ∀ (tr : List (GraphQLContext × MutCmd)) (s : Store), StoreInv s →
      StoreInv (runMutationTrace tr s) := by
    intro tr
    induction tr with
    | nil => exact fun s hs => hs
    | cons step rest ih =>
      intro s hs
      exact ih _ (runMutation_preserves_inv step.1 step.2 s hs)
  exact (main trace (seedStore createdAt) (seedStore_inv createdAt)).1

/-- C10 witness: after John orders 2 laptops the laptop's stock is 8,
still non-negative. -/
theorem stock_nonnegative_invariant_witness :
    0 ≤ ({ id := "1", name := "Laptop", price := 999.99, stock := 8 } : Product).stock :=
  stock_nonnegative_invariant "t0"
    [({ currentUser := some johnUser },
      MutCmd.createOrder "t1" { productId := "1", quantity := 2 })]
    { id := "1", name := "Laptop", price := 999.99, stock := 8 }
    (List.Mem.head _)

/-- C8 witness: John (role `user`) gets `FORBIDDEN`, the anonymous
context gets `UNAUTHENTICATED`, the admin gets the secret string. -/
theorem adminOnly_forbidden_vs_unauthenticated_witness :
    (∃ e, Query06.adminOnly { dbUsers := db06Users, currentUser := some johnPrincipal } =
        Except.error e ∧ e.code = ErrorCode.FORBIDDEN ∧ e.code ≠ ErrorCode.UNAUTHENTICATED) ∧
    (∃ e, Query06.adminOnly { dbUsers := db06Users, currentUser := none } =
        Except.error e ∧ e.code = ErrorCode.UNAUTHENTICATED) ∧
    Query06.adminOnly { dbUsers := db06Users, currentUser := some adminPrincipal } =
      Except.ok "Secret admin data! Only admins can see this." :=
  ⟨(adminOnly_forbidden_vs_unauthenticated
      { dbUsers := db06Users, currentUser := some johnPrincipal }).2.1 johnPrincipal rfl
      (by decide),
   (adminOnly_forbidden_vs_unauthenticated
      { dbUsers := db06Users, currentUser := none }).1 rfl,
   (adminOnly_forbidden_vs_unauthenticated
      { dbUsers := db06Users, currentUser := some adminPrincipal }).2.2 adminPrincipal rfl rfl⟩

end GqlCourse
